import Mathlib

/-!
Verification of the morph/animation core of the dual-state particle scene.

The embedding below translates the source files into Lean:
* `src/unnamed/part_001` — the `TreeMorphState` enum and the ornament record;
* `src/unnamed/part_000` — the initial application state;
* `src/utils/math.ts` — the three distribution generators;
* `src/components/Foliage.tsx` and `src/unnamed/part_002` — the per-frame
  morph-progress update, the cubic ease, and the per-instance transform.

Real-number quantities of the program are modelled as exact rationals (`ℚ`);
transcendental library calls (`Math.sin`, `Math.cos`, `Math.acos`,
`Math.cbrt`, `Math.sqrt`) are abstracted as oracle functions `ℚ → ℚ`, with
their IEEE domain behaviour (NaN outside the domain) made explicit where a
claim depends on it.  Each call to `Math.random()` is modelled as an explicit
parameter ranging over `[0,1)`.
-/

namespace XmasMorph

/-- The process-wide morph state enum, from `src/unnamed/part_001`. -/
inductive TreeMorphState where
  | SCATTERED
  | TREE_SHAPE
deriving DecidableEq, Repr

/-- The initial application state, `src/unnamed/part_000` line 7:
`useState<TreeMorphState>(TreeMorphState.TREE_SHAPE)`. -/
def initialTreeState : TreeMorphState := TreeMorphState.TREE_SHAPE

/-- The per-frame morph target,
`const target = state === TreeMorphState.TREE_SHAPE ? 1.0 : 0.0;`
(`Foliage.tsx` line 140, `src/unnamed/part_002` line 105). -/
def targetOf (s : TreeMorphState) : ℚ :=
  if s = TreeMorphState.TREE_SHAPE then 1 else 0

/-- Initial value of the foliage progress ref, `Foliage.tsx` line 132:
`const progressRef = useRef(0);`. -/
def foliageProgressInit : ℚ := 0

/-- Initial value of the ornament-group progress ref,
`src/unnamed/part_002` line 99: `const progressRef = useRef(0);`. -/
def ornamentProgressInit : ℚ := 0

/-- One frame of the morph controller:
`progress += (target - progress) * k * dt`
(`Foliage.tsx` line 143 with `k = speed = 1.5`;
`src/unnamed/part_002` line 107 with `k = lerpSpeed`). -/
def morphStep (k dt target p : ℚ) : ℚ := p + (target - p) * k * dt

/-- A sequence of frames of the morph controller: each list entry is the
pair `(dt, target)` of one frame, applied in order. -/
def morphRun (k : ℚ) (steps : List (ℚ × ℚ)) (p : ℚ) : ℚ :=
  steps.foldl (fun q s => morphStep k s.1 s.2 q) p

/-- The cubic ease applied to the current progress every frame,
`src/unnamed/part_002` line 111
(`const easeT = t < 0.5 ? 4 * t * t * t : 1 - Math.pow(-2 * t + 2, 3) / 2;`),
identical to `easeInOutCubic` in the `Foliage.tsx` vertex shader. -/
def easeInOutCubic (t : ℚ) : ℚ :=
  if t < 0.5 then 4 * t * t * t else 1 - (-2 * t + 2) ^ 3 / 2

/-- `THREE.MathUtils.lerp(x, y, t) = x + (y - x) * t`, used for the
componentwise position blend in `src/unnamed/part_002` lines 116-118; the
GLSL `mix` of the foliage shader computes the same function. -/
def lerp (x y t : ℚ) : ℚ := x + (y - x) * t

/-- A JavaScript `number`, idealized: a finite value is an exact rational;
the infinities and NaN are kept explicit so that the IEEE behaviour of the
generator arithmetic on degenerate inputs (division by zero, domain errors)
is visible in the model. -/
inductive JSNum where
  | nan
  | pinf
  | ninf
  | fin (q : ℚ)
deriving DecidableEq, Repr

/-- IEEE addition on `JSNum`: NaN propagates; opposite infinities give NaN. -/
def JSNum.add : JSNum → JSNum → JSNum
  | nan, _ => nan
  | _, nan => nan
  | pinf, ninf => nan
  | ninf, pinf => nan
  | pinf, _ => pinf
  | _, pinf => pinf
  | ninf, _ => ninf
  | _, ninf => ninf
  | fin a, fin b => fin (a + b)

/-- IEEE subtraction on `JSNum`. -/
def JSNum.sub : JSNum → JSNum → JSNum
  | nan, _ => nan
  | _, nan => nan
  | pinf, pinf => nan
  | ninf, ninf => nan
  | pinf, _ => pinf
  | _, pinf => ninf
  | ninf, _ => ninf
  | _, ninf => pinf
  | fin a, fin b => fin (a - b)

/-- IEEE multiplication on `JSNum`: NaN propagates; `∞ · 0` gives NaN. -/
def JSNum.mul : JSNum → JSNum → JSNum
  | nan, _ => nan
  | _, nan => nan
  | fin a, fin b => fin (a * b)
  | pinf, pinf => pinf
  | pinf, ninf => ninf
  | ninf, pinf => ninf
  | ninf, ninf => pinf
  | pinf, fin b => if b = 0 then nan else if 0 < b then pinf else ninf
  | fin a, pinf => if a = 0 then nan else if 0 < a then pinf else ninf
  | ninf, fin b => if b = 0 then nan else if 0 < b then ninf else pinf
  | fin a, ninf => if a = 0 then nan else if 0 < a then ninf else pinf

/-- IEEE division on `JSNum`: `0 / 0` is NaN, `a / 0` for `a ≠ 0` is a signed
infinity (JavaScript's literal `0` is `+0`), `∞ / ∞` is NaN. -/
def JSNum.div : JSNum → JSNum → JSNum
  | nan, _ => nan
  | _, nan => nan
  | pinf, pinf => nan
  | pinf, ninf => nan
  | ninf, pinf => nan
  | ninf, ninf => nan
  | pinf, fin b => if 0 ≤ b then pinf else ninf
  | ninf, fin b => if 0 ≤ b then ninf else pinf
  | fin _, pinf => fin 0
  | fin _, ninf => fin 0
  | fin a, fin b =>
    if b = 0 then (if a = 0 then nan else if 0 < a then pinf else ninf)
    else fin (a / b)

/-- Whether a `JSNum` is a finite number (so in particular not NaN). -/
def JSNum.isFin : JSNum → Bool
  | fin _ => true
  | _ => false

/-- Oracle for the transcendental `Math` library functions: each is an
arbitrary total function on finite values, together with a finite rational
standing for `Math.PI`.  Domain behaviour (where the IEEE functions return
NaN) is imposed by the `js*` wrappers below, not by the oracle. -/
structure TrigOracle where
  cos : ℚ → ℚ
  sin : ℚ → ℚ
  acos : ℚ → ℚ
  cbrt : ℚ → ℚ
  sqrt : ℚ → ℚ
  pi : ℚ

/-- `Math.cos`: finite on finite arguments, NaN on ±∞ and NaN. -/
def jsCos (o : TrigOracle) : JSNum → JSNum
  | JSNum.fin q => JSNum.fin (o.cos q)
  | _ => JSNum.nan

/-- `Math.sin`: finite on finite arguments, NaN on ±∞ and NaN. -/
def jsSin (o : TrigOracle) : JSNum → JSNum
  | JSNum.fin q => JSNum.fin (o.sin q)
  | _ => JSNum.nan

/-- `Math.acos`: defined on `[-1, 1]`, NaN elsewhere. -/
def jsAcos (o : TrigOracle) : JSNum → JSNum
  | JSNum.fin q => if -1 ≤ q ∧ q ≤ 1 then JSNum.fin (o.acos q) else JSNum.nan
  | _ => JSNum.nan

/-- `Math.cbrt`: total, maps ±∞ to ±∞. -/
def jsCbrt (o : TrigOracle) : JSNum → JSNum
  | JSNum.fin q => JSNum.fin (o.cbrt q)
  | JSNum.pinf => JSNum.pinf
  | JSNum.ninf => JSNum.ninf
  | JSNum.nan => JSNum.nan

/-- `Math.sqrt`: NaN on negative arguments, `+∞` at `+∞`. -/
def jsSqrt (o : TrigOracle) : JSNum → JSNum
  | JSNum.fin q => if 0 ≤ q then JSNum.fin (o.sqrt q) else JSNum.nan
  | JSNum.pinf => JSNum.pinf
  | _ => JSNum.nan

/-- A concrete oracle instance used for closed evaluations. -/
def idOracle : TrigOracle :=
  { cos := id, sin := id, acos := id, cbrt := id, sqrt := id, pi := 355 / 113 }

/-- `getRandomSpherePoint` from `src/utils/math.ts` lines 9-19.  The three
`Math.random()` draws are the parameters `u`, `v`, `w` in call order. -/
def getRandomSpherePoint (o : TrigOracle) (radius : JSNum) (u v w : ℚ) :
    JSNum × JSNum × JSNum :=
  let theta := (JSNum.fin 2).mul ((JSNum.fin o.pi).mul (JSNum.fin u))
  let phi := jsAcos o (((JSNum.fin 2).mul (JSNum.fin v)).sub (JSNum.fin 1))
  let r := (jsCbrt o (JSNum.fin w)).mul radius
  let x := (r.mul (jsSin o phi)).mul (jsCos o theta)
  let y := (r.mul (jsSin o phi)).mul (jsSin o theta)
  let z := r.mul (jsCos o phi)
  (x, y, z)

/-- `getTreePoint` from `src/utils/math.ts` lines 22-40.  The three
`Math.random()` draws are the parameters `u1`, `u2`, `u3` in call order. -/
def getTreePoint (o : TrigOracle) (height radiusBase yOffset : JSNum)
    (u1 u2 u3 : ℚ) : JSNum × JSNum × JSNum :=
  let h := JSNum.fin u1
  let y := h.mul height
  let currentRadius := ((JSNum.fin 1).sub h).mul radiusBase
  let angle := ((JSNum.fin u2).mul (JSNum.fin o.pi)).mul (JSNum.fin 2)
  let r := (jsSqrt o (JSNum.fin u3)).mul currentRadius
  let x := r.mul (jsCos o angle)
  let z := r.mul (jsSin o angle)
  (x, y.add yOffset, z)

/-- `getTreeSpiralPoint` from `src/utils/math.ts` lines 43-55: deterministic,
no `Math.random()` call. -/
def getTreeSpiralPoint (o : TrigOracle) (t totalPoints height radiusBase yOffset : JSNum) :
    JSNum × JSNum × JSNum :=
  let hFrac := t.div totalPoints
  let y := (hFrac.mul height).add yOffset
  let r := ((JSNum.fin 1).sub hFrac).mul radiusBase
  let angle := t.mul (JSNum.fin 2.39996)
  let x := r.mul (jsCos o angle)
  let z := r.mul (jsSin o angle)
  (x, y, z)

/-- `TREE_HEIGHT` from `src/utils/math.ts`. -/
def TREE_HEIGHT : ℚ := 12

/-- `TREE_RADIUS_BASE` from `src/utils/math.ts`. -/
def TREE_RADIUS_BASE : ℚ := 5.5

/-- `SCATTER_RADIUS` from `src/utils/math.ts`. -/
def SCATTER_RADIUS : ℚ := 18

/-- The palette color excluded from the sphere bonus-size rolls,
`src/unnamed/part_002` line 58. -/
def excludedRed : String := "#8a0000"

/-- The fallback ornament color, `src/unnamed/part_002` line 34. -/
def defaultGold : String := "#d4af37"

/-- Palette lookup of `src/unnamed/part_002` lines 34-37:
`let colorHex = '#d4af37';
 if (palette && palette.length > 0) {
   colorHex = palette[Math.floor(Math.random() * palette.length)]; }`.
`u` is the `Math.random()` draw; an (unreachable for `u ∈ [0,1)`)
out-of-bounds index is mapped to the default by `getD`. -/
def pickColor (palette : Option (List String)) (u : ℚ) : String :=
  match palette with
  | some p =>
    if 0 < p.length then p.getD (⌊u * p.length⌋).toNat defaultGold
    else defaultGold
  | none => defaultGold

/-- Sphere branch of the scale logic, `src/unnamed/part_002` lines 52-67.
`u0` is the `Math.random()` of the default small-detail sizing, `r` the tier
roll drawn when the color is not the excluded red, and `u1` the
`Math.random()` inside the chosen bonus tier. -/
def sphereItemScale (scaleBase : ℚ) (colorHex : String) (u0 r u1 : ℚ) : ℚ :=
  let base := scaleBase * (0.8 + u0 * 0.4)
  if colorHex ≠ excludedRed then
    if r < 0.04 then scaleBase * (2.2 + u1 * 0.2)
    else if r < 0.20 then scaleBase * (1.4 + u1 * 0.4)
    else base
  else base

/-- One ornament record, from the `OrnamentData` interface of
`src/unnamed/part_001` plus the `scaleVector` attached at
`src/unnamed/part_002` line 81.  Vectors are triples of rationals. -/
structure OrnamentData where
  id : ℕ
  scatter : ℚ × ℚ × ℚ
  tree : ℚ × ℚ × ℚ
  scale : ℚ
  rotation : ℚ × ℚ × ℚ
  color : String
  speed : ℚ
  offset : ℚ
  scaleVector : ℚ × ℚ × ℚ
deriving DecidableEq, Repr

/-- X rotation of an instance, `src/unnamed/part_002` line 124:
`tempObj.rotation.x = item.rotation[0] + (time * 0.2 * (1-easeT));`. -/
def rotX (base time easeT : ℚ) : ℚ := base + time * 0.2 * (1 - easeT)

/-- Y rotation of an instance, `src/unnamed/part_002` line 125:
`tempObj.rotation.y = item.rotation[1] + (time * 0.1);`. -/
def rotY (base time : ℚ) : ℚ := base + time * 0.1

/-- Z rotation of an instance, `src/unnamed/part_002` line 126:
`tempObj.rotation.z = item.rotation[2];`. -/
def rotZ (base : ℚ) : ℚ := base

/-- The per-instance transform written into the instance matrix slot. -/
structure InstanceTransform where
  position : ℚ × ℚ × ℚ
  rotation : ℚ × ℚ × ℚ
  scale : ℚ × ℚ × ℚ
deriving DecidableEq, Repr

/-- The body of the per-frame `data.forEach` of `src/unnamed/part_002`
lines 115-139 for one item: position blend, float offset, rotations and
pulsing scale.  `s` abstracts `Math.sin`. -/
def computeTransform (s : ℚ → ℚ) (item : OrnamentData) (easeT time : ℚ) :
    InstanceTransform :=
  let x := lerp item.scatter.1 item.tree.1 easeT
  let y := lerp item.scatter.2.1 item.tree.2.1 easeT
  let z := lerp item.scatter.2.2 item.tree.2.2 easeT
  let floatY := s (time * item.speed + item.offset) * (0.2 * (1 - easeT))
  let scalePop := item.scale * (0.8 + 0.2 * s (time + item.offset))
  { position := (x, y + floatY, z)
    rotation := (rotX item.rotation.1 time easeT,
                 rotY item.rotation.2.1 time,
                 rotZ item.rotation.2.2)
    scale := (item.scaleVector.1 * scalePop,
              item.scaleVector.2.1 * scalePop,
              item.scaleVector.2.2 * scalePop) }

/-- The state one ornament group touches during a frame: the dataset built
once by `useMemo`, and the instance-matrix slots written by `setMatrixAt`. -/
structure GroupState where
  data : List OrnamentData
  matrices : List InstanceTransform
deriving DecidableEq, Repr

/-- One whole `useFrame` pass over a group's dataset,
`src/unnamed/part_002` lines 115-143: for every index `i`, slot `i` of the
instance matrices is recomputed from record `i`; the dataset itself is only
read. -/
def frameStep (s : ℚ → ℚ) (st : GroupState) (easeT time : ℚ) : GroupState :=
  { data := st.data
    matrices := st.data.map (fun item => computeTransform s item easeT time) }

/-- A concrete ornament record used in closed evaluations. -/
def sampleItem : OrnamentData :=
  { id := 0
    scatter := (1, 2, 3)
    tree := (4, 5, 6)
    scale := 1
    rotation := (0, 0, 0)
    color := "#ffc125"
    speed := 1
    offset := 0
    scaleVector := (1, 1, 1) }

/-! ## Theorems -/

/-- One morph step with `0 ≤ k·dt ≤ 1` lands between the current progress
and the target: no overshoot. -/
lemma morphStep_between (k dt target q : ℚ) (h0 : 0 ≤ k * dt) (h1 : k * dt ≤ 1) :
    (q ≤ target → q ≤ morphStep k dt target q ∧ morphStep k dt target q ≤ target) ∧
    (target ≤ q → target ≤ morphStep k dt target q ∧ morphStep k dt target q ≤ q) := by
  unfold morphStep
  constructor
  · intro h
    have a1 : 0 ≤ (target - q) * (k * dt) := mul_nonneg (by linarith) h0
    have a2 : 0 ≤ (target - q) * (1 - k * dt) := mul_nonneg (by linarith) (by linarith)
    constructor <;> nlinarith [a1, a2]
  · intro h
    have a1 : (target - q) * (k * dt) ≤ 0 :=
      mul_nonpos_of_nonpos_of_nonneg (by linarith) h0
    have a2 : (target - q) * (1 - k * dt) ≤ 0 :=
      mul_nonpos_of_nonpos_of_nonneg (by linarith) (by linarith)
    constructor <;> nlinarith [a1, a2]

/-- One morph step with a target in `{0, 1}` keeps progress in `[0, 1]`. -/
lemma morphStep_mem (k dt target q : ℚ) (h0 : 0 ≤ k * dt) (h1 : k * dt ≤ 1)
    (ht : target = 0 ∨ target = 1) (hq0 : 0 ≤ q) (hq1 : q ≤ 1) :
    0 ≤ morphStep k dt target q ∧ morphStep k dt target q ≤ 1 := by
  rcases ht with h | h <;> subst h
  · obtain ⟨hl, hr⟩ := (morphStep_between k dt 0 q h0 h1).2 hq0
    exact ⟨hl, le_trans hr hq1⟩
  · obtain ⟨hl, hr⟩ := (morphStep_between k dt 1 q h0 h1).1 hq1
    exact ⟨le_trans hq0 hl, hr⟩

/-- Any frame sequence whose steps satisfy `0 ≤ k·dt ≤ 1` and whose targets
lie in `{0, 1}` keeps progress in `[0, 1]`. -/
lemma morphRun_mem (k : ℚ) (steps : List (ℚ × ℚ)) :
    ∀ p : ℚ,
      (∀ s ∈ steps, 0 ≤ k * s.1 ∧ k * s.1 ≤ 1 ∧ (s.2 = 0 ∨ s.2 = 1)) →
      0 ≤ p → p ≤ 1 → 0 ≤ morphRun k steps p ∧ morphRun k steps p ≤ 1 := by
  induction steps with
  | nil => intro p _ h0 h1; exact ⟨h0, h1⟩
  | cons s rest ih =>
    intro p hs h0 h1
    obtain ⟨hs0, hs1, hst⟩ := hs s (List.mem_cons_self _ _)
    have hstep := morphStep_mem k s.1 s.2 p hs0 hs1 hst h0 h1
    have hrw : morphRun k (s :: rest) p = morphRun k rest (morphStep k s.1 s.2 p) := rfl
    rw [hrw]
    exact ih _ (fun x hx => hs x (List.mem_cons_of_mem _ hx)) hstep.1 hstep.2

/-- C1, counterexample: the claim quantifies over every `dt ≥ 0`, but a
single frame with `dt = 1` at the foliage rate `k = 1.5`, target `1`, from
progress `0`, updates progress to `1.5`, leaving `[0, 1]` and overshooting
the target — far beyond floating-point rounding. -/
theorem morph_overshoot_counterexample :
    (0:ℚ) ≤ 1 ∧ morphStep 1.5 1 1 0 = 1.5 ∧ ¬ morphStep 1.5 1 1 0 ≤ 1 := by
  norm_num [morphStep]

/-- C1, amended: restricted to frames with `0 ≤ k·dt ≤ 1` (which holds for
every frame of an ordinary render loop at the rates `k ∈ {1.5, 1.8, 1.2}`),
the update `progress += (target − progress)·k·dt` with targets in `{0, 1}`
keeps progress within `[0, 1]` from any start in `[0, 1]`, and each single
step lands between the previous progress and its target (no overshoot). -/
theorem morph_progress_bounded_amended (k : ℚ) (steps : List (ℚ × ℚ)) (p : ℚ)
    (hsteps : ∀ s ∈ steps, 0 ≤ k * s.1 ∧ k * s.1 ≤ 1 ∧ (s.2 = 0 ∨ s.2 = 1))
    (hp0 : 0 ≤ p) (hp1 : p ≤ 1) :
    (0 ≤ morphRun k steps p ∧ morphRun k steps p ≤ 1) ∧
    ∀ dt target q, 0 ≤ k * dt → k * dt ≤ 1 →
      (q ≤ target → q ≤ morphStep k dt target q ∧ morphStep k dt target q ≤ target) ∧
      (target ≤ q → target ≤ morphStep k dt target q ∧ morphStep k dt target q ≤ q) :=
  ⟨morphRun_mem k steps p hsteps hp0 hp1,
   fun dt target q h0 h1 => morphStep_between k dt target q h0 h1⟩

/-- Witness for the amended C1 at `k = 1.5`, two frames of `dt = 1/60`
with a target reversal, starting from progress `1/2`. -/
theorem morph_progress_bounded_amended_witness :
    (0 ≤ morphRun 1.5 [(1/60, 1), (1/60, 0)] (1/2) ∧
      morphRun 1.5 [(1/60, 1), (1/60, 0)] (1/2) ≤ 1) ∧
    ∀ dt target q, 0 ≤ (1.5:ℚ) * dt → (1.5:ℚ) * dt ≤ 1 →
      (q ≤ target →
        q ≤ morphStep 1.5 dt target q ∧ morphStep 1.5 dt target q ≤ target) ∧
      (target ≤ q →
        target ≤ morphStep 1.5 dt target q ∧ morphStep 1.5 dt target q ≤ q) :=
  morph_progress_bounded_amended 1.5 [(1/60, 1), (1/60, 0)] (1/2)
    (by intro s hs; fin_cases hs <;> norm_num) (by norm_num) (by norm_num)

/-- Holding the target at `1` for `n` frames of step `dt` leaves the gap
`(1 − p)·(1 − k·dt)^n` to full convergence. -/
lemma morphRun_replicate_formed (k dt : ℚ) :
    ∀ (n : ℕ) (p : ℚ),
      1 - morphRun k (List.replicate n (dt, 1)) p = (1 - p) * (1 - k * dt) ^ n := by
  intro n
  induction n with
  | zero => intro p; simp [morphRun]
  | succ m ih =>
    intro p
    have h1 : morphRun k (List.replicate (m + 1) (dt, 1)) p
        = morphRun k (List.replicate m (dt, 1)) (morphStep k dt 1 p) := by
      rw [List.replicate_succ]; rfl
    rw [h1, ih]
    unfold morphStep
    ring

/-- The geometric factor left after 400 foliage frames: `(39/40)^400` is
below `10^-4`. -/
lemma pow_bound_39_40 : ((39:ℚ)/40) ^ 400 < 1/10000 := by
  have h : ((39:ℕ) ^ 400 * 10000 : ℕ) < 1 * 40 ^ 400 := by decide
  rw [div_pow, div_lt_div_iff (by positivity) (by norm_num)]
  exact_mod_cast h

/-- C6: at the foliage rate `k = 1.5` with the target held at formed (`1`),
400 frames of `dt = 1/60` (that is, `10/k` seconds) drive progress strictly
above `0.9999` from any start in `[0, 1]`. -/
theorem foliage_convergence (p : ℚ) (hp0 : 0 ≤ p) (hp1 : p ≤ 1) :
    morphRun 1.5 (List.replicate 400 (1/60, 1)) p > 0.9999 := by
  have hrep := morphRun_replicate_formed 1.5 (1/60) 400 p
  have hk : (1:ℚ) - 1.5 * (1/60) = 39/40 := by norm_num
  rw [hk] at hrep
  have hb := pow_bound_39_40
  have hpos : (0:ℚ) ≤ ((39:ℚ)/40) ^ 400 := by positivity
  have hle : (1 - p) * ((39:ℚ)/40) ^ 400 ≤ ((39:ℚ)/40) ^ 400 := by
    nlinarith [mul_nonneg hp0 hpos]
  linarith [hrep, hle, hb]

/-- Witness for C6 at the start progress `0`. -/
theorem foliage_convergence_witness :
    (0:ℚ) ≤ 0 ∧ (0:ℚ) ≤ 1 ∧
      morphRun 1.5 (List.replicate 400 (1/60, 1)) 0 > 0.9999 :=
  ⟨le_refl 0, by norm_num, foliage_convergence 0 (le_refl 0) (by norm_num)⟩

/-- C3, counterexample: `getTreeSpiralPoint` neither rejects nor clamps a
zero `totalPoints`: the call with `total = 0` (at index `0`, with the tree
constants) computes `hRatio = 0/0 = NaN`, which propagates to all three
returned coordinates — refuting the claim that it returns finite, non-NaN
coordinates there. -/
theorem spiral_nan_counterexample :
    getTreeSpiralPoint idOracle (JSNum.fin 0) (JSNum.fin 0) (JSNum.fin 12)
        (JSNum.fin 4.95) (JSNum.fin (-5)) =
      (JSNum.nan, JSNum.nan, JSNum.nan) := by
  simp [getTreeSpiralPoint, JSNum.div, JSNum.mul, JSNum.add, JSNum.sub,
    jsCos, jsSin, idOracle]

/-- C3, amended: none of the three generators rejects or clamps degenerate
inputs.  `getRandomSpherePoint` and `getTreePoint` nonetheless return
finite (non-NaN) coordinates for every finite radius — including zero and
negative radii, which simply scale or mirror the point — as long as the
`Math.random()` draws lie in `[0,1)`; `getTreeSpiralPoint` returns finite
coordinates whenever `total ≠ 0`, but produces NaN at `total = 0`
(`spiral_nan_counterexample`). -/
theorem generator_finiteness_amended (o : TrigOracle)
    (radius height radiusBase yOffset tq totq u v w u1 u2 u3 : ℚ)
    (hv0 : 0 ≤ v) (hv1 : v < 1) (hu3 : 0 ≤ u3) (htot : totq ≠ 0) :
    ((getRandomSpherePoint o (JSNum.fin radius) u v w).1.isFin = true ∧
     (getRandomSpherePoint o (JSNum.fin radius) u v w).2.1.isFin = true ∧
     (getRandomSpherePoint o (JSNum.fin radius) u v w).2.2.isFin = true) ∧
    ((getTreePoint o (JSNum.fin height) (JSNum.fin radiusBase)
        (JSNum.fin yOffset) u1 u2 u3).1.isFin = true ∧
     (getTreePoint o (JSNum.fin height) (JSNum.fin radiusBase)
        (JSNum.fin yOffset) u1 u2 u3).2.1.isFin = true ∧
     (getTreePoint o (JSNum.fin height) (JSNum.fin radiusBase)
        (JSNum.fin yOffset) u1 u2 u3).2.2.isFin = true) ∧
    ((getTreeSpiralPoint o (JSNum.fin tq) (JSNum.fin totq) (JSNum.fin height)
        (JSNum.fin radiusBase) (JSNum.fin yOffset)).1.isFin = true ∧
     (getTreeSpiralPoint o (JSNum.fin tq) (JSNum.fin totq) (JSNum.fin height)
        (JSNum.fin radiusBase) (JSNum.fin yOffset)).2.1.isFin = true ∧
     (getTreeSpiralPoint o (JSNum.fin tq) (JSNum.fin totq) (JSNum.fin height)
        (JSNum.fin radiusBase) (JSNum.fin yOffset)).2.2.isFin = true) := by
  have hacos1 : -1 ≤ 2 * v - 1 := by linarith
  have hacos2 : 2 * v - 1 ≤ 1 := by linarith
  refine ⟨?_, ?_, ?_⟩
  · simp [getRandomSpherePoint, jsAcos, jsCbrt, jsSin, jsCos, JSNum.mul,
      JSNum.sub, JSNum.isFin, hacos1, hacos2]
  · simp [getTreePoint, jsSqrt, jsSin, jsCos, JSNum.mul, JSNum.sub,
      JSNum.add, JSNum.isFin, hu3]
  · simp [getTreeSpiralPoint, JSNum.div, JSNum.mul, JSNum.sub, JSNum.add,
      jsCos, jsSin, JSNum.isFin, htot]

/-- Witness for the amended C3 at the concrete program constants
(scatter radius `18`, tree height `12`, base radius `5.5`, `yOffset = -5`,
index `3` of `250` spiral points) with all random draws equal to `1/2`. -/
theorem generator_finiteness_amended_witness :
    (((getRandomSpherePoint idOracle (JSNum.fin 18) (1/2) (1/2) (1/2)).1.isFin = true ∧
      (getRandomSpherePoint idOracle (JSNum.fin 18) (1/2) (1/2) (1/2)).2.1.isFin = true ∧
      (getRandomSpherePoint idOracle (JSNum.fin 18) (1/2) (1/2) (1/2)).2.2.isFin = true) ∧
     ((getTreePoint idOracle (JSNum.fin 12) (JSNum.fin 5.5)
         (JSNum.fin (-5)) (1/2) (1/2) (1/2)).1.isFin = true ∧
      (getTreePoint idOracle (JSNum.fin 12) (JSNum.fin 5.5)
         (JSNum.fin (-5)) (1/2) (1/2) (1/2)).2.1.isFin = true ∧
      (getTreePoint idOracle (JSNum.fin 12) (JSNum.fin 5.5)
         (JSNum.fin (-5)) (1/2) (1/2) (1/2)).2.2.isFin = true) ∧
     ((getTreeSpiralPoint idOracle (JSNum.fin 3) (JSNum.fin 250) (JSNum.fin 12)
         (JSNum.fin 5.5) (JSNum.fin (-5))).1.isFin = true ∧
      (getTreeSpiralPoint idOracle (JSNum.fin 3) (JSNum.fin 250) (JSNum.fin 12)
         (JSNum.fin 5.5) (JSNum.fin (-5))).2.1.isFin = true ∧
      (getTreeSpiralPoint idOracle (JSNum.fin 3) (JSNum.fin 250) (JSNum.fin 12)
         (JSNum.fin 5.5) (JSNum.fin (-5))).2.2.isFin = true)) :=
  generator_finiteness_amended idOracle 18 12 5.5 (-5) 3 250 (1/2) (1/2) (1/2)
    (1/2) (1/2) (1/2) (by norm_num) (by norm_num) (by norm_num) (by norm_num)

/-- C5: the stratified sphere sizing of the dataset builder.  A record
whose drawn color is the excluded red always receives the base tier
`[0.8, 1.2) · scaleBase`; otherwise the roll `r` selects the tier:
`r < 0.04` gives `[2.2, 2.4) · scaleBase`, `0.04 ≤ r < 0.20` gives
`[1.4, 1.8) · scaleBase`, and `r ≥ 0.20` the base tier. -/
theorem sphere_scale_tiers (scaleBase : ℚ) (colorHex : String) (u0 r u1 : ℚ)
    (hsb : 0 < scaleBase) (h00 : 0 ≤ u0) (h01 : u0 < 1)
    (h10 : 0 ≤ u1) (h11 : u1 < 1) :
    (colorHex = excludedRed →
      scaleBase * 0.8 ≤ sphereItemScale scaleBase colorHex u0 r u1 ∧
      sphereItemScale scaleBase colorHex u0 r u1 < scaleBase * 1.2) ∧
    (colorHex ≠ excludedRed →
      (r < 0.04 →
        scaleBase * 2.2 ≤ sphereItemScale scaleBase colorHex u0 r u1 ∧
        sphereItemScale scaleBase colorHex u0 r u1 < scaleBase * 2.4) ∧
      (0.04 ≤ r → r < 0.20 →
        scaleBase * 1.4 ≤ sphereItemScale scaleBase colorHex u0 r u1 ∧
        sphereItemScale scaleBase colorHex u0 r u1 < scaleBase * 1.8) ∧
      (0.20 ≤ r →
        scaleBase * 0.8 ≤ sphereItemScale scaleBase colorHex u0 r u1 ∧
        sphereItemScale scaleBase colorHex u0 r u1 < scaleBase * 1.2)) := by
  unfold sphereItemScale
  constructor
  · intro hc
    have hnot : ¬ colorHex ≠ excludedRed := by simp [hc]
    rw [if_neg hnot]
    constructor <;> nlinarith [mul_nonneg hsb.le h00, mul_lt_mul_of_pos_left h01 hsb]
  · intro hc
    rw [if_pos hc]
    refine ⟨?_, ?_, ?_⟩
    · intro hr
      rw [if_pos hr]
      constructor <;> nlinarith [mul_nonneg hsb.le h10, mul_lt_mul_of_pos_left h11 hsb]
    · intro hr1 hr2
      rw [if_neg (not_lt.mpr hr1), if_pos hr2]
      constructor <;> nlinarith [mul_nonneg hsb.le h10, mul_lt_mul_of_pos_left h11 hsb]
    · intro hr
      rw [if_neg (not_lt.mpr (le_trans (by norm_num) hr)),
        if_neg (not_lt.mpr hr)]
      constructor <;> nlinarith [mul_nonneg hsb.le h00, mul_lt_mul_of_pos_left h01 hsb]

/-- Witness for C5: a gold sphere record (`scaleBase = 0.25`) with roll
`r = 0.01` receives the `2.2–2.4×` tier, and the excluded-red case gives
the base tier. -/
theorem sphere_scale_tiers_witness :
    (("#ffc125" : String) = excludedRed →
      (0.25:ℚ) * 0.8 ≤ sphereItemScale 0.25 "#ffc125" 0 0.01 0 ∧
      sphereItemScale 0.25 "#ffc125" 0 0.01 0 < 0.25 * 1.2) ∧
    (("#ffc125" : String) ≠ excludedRed →
      ((0.01:ℚ) < 0.04 →
        (0.25:ℚ) * 2.2 ≤ sphereItemScale 0.25 "#ffc125" 0 0.01 0 ∧
        sphereItemScale 0.25 "#ffc125" 0 0.01 0 < 0.25 * 2.4) ∧
      ((0.04:ℚ) ≤ 0.01 → (0.01:ℚ) < 0.20 →
        (0.25:ℚ) * 1.4 ≤ sphereItemScale 0.25 "#ffc125" 0 0.01 0 ∧
        sphereItemScale 0.25 "#ffc125" 0 0.01 0 < 0.25 * 1.8) ∧
      ((0.20:ℚ) ≤ 0.01 →
        (0.25:ℚ) * 0.8 ≤ sphereItemScale 0.25 "#ffc125" 0 0.01 0 ∧
        sphereItemScale 0.25 "#ffc125" 0 0.01 0 < 0.25 * 1.2)) :=
  sphere_scale_tiers 0.25 "#ffc125" 0 0.01 0 (by norm_num) (by norm_num)
    (by norm_num) (by norm_num) (by norm_num)

/-- The sphere ornament palette from `src/unnamed/part_002` lines 187-193. -/
def spherePalette : List String :=
  ["#ffc125", "#ffc125", "#ffc125", "#8a0000", "#ffffff"]

/-- C9: with an absent or empty palette the drawn ornament color is the
fixed default `'#d4af37'`, and with a non-empty palette the random index
`Math.floor(u * palette.length)` is in bounds for `u ∈ [0,1)`, so the drawn
color is an element of the palette. -/
theorem pickColor_total (p : List String) (u : ℚ) (h0 : 0 ≤ u) (h1 : u < 1) :
    pickColor none u = defaultGold ∧
    pickColor (some []) u = defaultGold ∧
    (p ≠ [] → pickColor (some p) u ∈ p) := by
  refine ⟨rfl, rfl, ?_⟩
  intro hp
  have hlen : 0 < p.length := List.length_pos.mpr hp
  show (if 0 < p.length then p.getD (⌊u * (p.length : ℚ)⌋).toNat defaultGold
      else defaultGold) ∈ p
  rw [if_pos hlen]
  have hlenq : (0:ℚ) < (p.length : ℚ) := by exact_mod_cast hlen
  have hflt : ⌊u * (p.length : ℚ)⌋ < (p.length : ℤ) := by
    rw [Int.floor_lt]
    push_cast
    calc u * (p.length : ℚ) < 1 * (p.length : ℚ) :=
          mul_lt_mul_of_pos_right h1 hlenq
      _ = (p.length : ℚ) := one_mul _
  have hfge : 0 ≤ ⌊u * (p.length : ℚ)⌋ :=
    Int.floor_nonneg.mpr (mul_nonneg h0 hlenq.le)
  have hidx : (⌊u * (p.length : ℚ)⌋).toNat < p.length := by omega
  rw [List.getD_eq_getElem _ _ hidx]
  exact List.getElem_mem hidx

/-- Witness for C9 on the concrete sphere palette at draw `u = 1/2`. -/
theorem pickColor_total_witness :
    pickColor none (1/2) = defaultGold ∧
    pickColor (some []) (1/2) = defaultGold ∧
    (spherePalette ≠ [] → pickColor (some spherePalette) (1/2) ∈ spherePalette) :=
  pickColor_total spherePalette (1/2) (by norm_num) (by norm_num)

/-- C10: the cubic ease satisfies `ease 0 = 0`, `ease 1 = 1`, and is
monotonically nondecreasing on `[0, 1]`; consequently the blended position
`lerp scatter tree (ease progress)` is exactly the scatter position at
progress `0` and exactly the tree position at progress `1`. -/
theorem ease_endpoints_monotone (a b s t : ℚ)
    (h0 : 0 ≤ a) (hab : a ≤ b) (hb1 : b ≤ 1) :
    easeInOutCubic 0 = 0 ∧ easeInOutCubic 1 = 1 ∧
    easeInOutCubic a ≤ easeInOutCubic b ∧
    lerp s t (easeInOutCubic 0) = s ∧ lerp s t (easeInOutCubic 1) = t := by
  have he0 : easeInOutCubic 0 = 0 := by norm_num [easeInOutCubic]
  have he1 : easeInOutCubic 1 = 1 := by norm_num [easeInOutCubic]
  refine ⟨he0, he1, ?_, by rw [he0]; unfold lerp; ring, by rw [he1]; unfold lerp; ring⟩
  unfold easeInOutCubic
  split_ifs with ha hb hb
  · nlinarith [mul_nonneg (sub_nonneg.2 hab) (sq_nonneg (a + b)),
      mul_nonneg (sub_nonneg.2 hab) (sq_nonneg a),
      mul_nonneg (sub_nonneg.2 hab) (sq_nonneg b)]
  · have hb2 : (1:ℚ)/2 ≤ b := by linarith [not_lt.mp hb]
    nlinarith [mul_nonneg (by linarith : (0:ℚ) ≤ 1/2 - a) (sq_nonneg a),
      mul_nonneg (by linarith : (0:ℚ) ≤ 1/2 - a) h0,
      mul_nonneg (by linarith : (0:ℚ) ≤ 2*b - 1) (sq_nonneg (2 - 2*b)),
      mul_nonneg (by linarith : (0:ℚ) ≤ 2*b - 1) (by linarith : (0:ℚ) ≤ 2 - 2*b)]
  · exact absurd (lt_of_le_of_lt hab hb) ha
  · have ha2 : (1:ℚ)/2 ≤ a := by linarith [not_lt.mp ha]
    nlinarith [mul_nonneg (by linarith : (0:ℚ) ≤ (2 - 2*a) - (2 - 2*b))
        (sq_nonneg ((2 - 2*a) + (2 - 2*b))),
      mul_nonneg (by linarith : (0:ℚ) ≤ (2 - 2*a) - (2 - 2*b)) (sq_nonneg (2 - 2*a)),
      mul_nonneg (by linarith : (0:ℚ) ≤ (2 - 2*a) - (2 - 2*b)) (sq_nonneg (2 - 2*b))]

/-- Witness for C10 at `a = 0`, `b = 1`, scatter `3`, tree `7`. -/
theorem ease_endpoints_monotone_witness :
    easeInOutCubic 0 = 0 ∧ easeInOutCubic 1 = 1 ∧
    easeInOutCubic 0 ≤ easeInOutCubic 1 ∧
    lerp 3 7 (easeInOutCubic 0) = 3 ∧ lerp 3 7 (easeInOutCubic 1) = 7 :=
  ease_endpoints_monotone 0 1 3 7 (by norm_num) (by norm_num) (by norm_num)

/-- C2, counterexample: both progress refs are initialized with `useRef(0)`,
not with the value `1` that matches the initial state `TREE_SHAPE`, so the
claim that progress starts at the value matching the initial `MorphState`
is false on the code. -/
theorem progress_init_counterexample :
    ¬ (foliageProgressInit = targetOf initialTreeState ∧
       ornamentProgressInit = targetOf initialTreeState) := by decide

/-- C2, amended: the foliage and ornament progress scalars are both
initialized to `0` (the scattered value) regardless of the initial
`MorphState`; since the initial application state is `TREE_SHAPE` (whose
target value is `1`), the first frames play a scatter-to-tree startup
transition instead of starting fully formed. -/
theorem progress_init_amended :
    foliageProgressInit = 0 ∧ ornamentProgressInit = 0 ∧
    initialTreeState = TreeMorphState.TREE_SHAPE ∧
    targetOf initialTreeState = 1 ∧
    foliageProgressInit ≠ targetOf initialTreeState := by decide

/-- C4, counterexample: with the blend factor `easeT = 1` (fully formed),
the per-instance rotation still changes between two frame times, because
the y-axis spin term `time * 0.1` carries no `(1 - easeT)` fade.  This
refutes the claim that at `easeT = 1` the rotation is constant over time on
every axis. -/
theorem rotation_spin_counterexample :
    (computeTransform id sampleItem 1 0).rotation ≠
    (computeTransform id sampleItem 1 1).rotation := by
  intro h
  have h2 : (computeTransform id sampleItem 1 0).rotation.2.1 =
      (computeTransform id sampleItem 1 1).rotation.2.1 := by rw [h]
  simp [computeTransform, sampleItem, rotY] at h2
  norm_num at h2

/-- C4, amended: the x-axis spin term `time * 0.2 * (1 - easeT)` fades with
`(1 - easeT)`, so at `easeT = 1` the x rotation is constant over time, and
the z rotation is always constant; but the y-axis spin term `time * 0.1`
does not fade, so at `easeT = 1` the y rotation still distinguishes any two
distinct frame times — formed instances keep spinning about the y axis. -/
theorem rotation_spin_fade_amended (s : ℚ → ℚ) (item : OrnamentData) (t1 t2 : ℚ) :
    (computeTransform s item 1 t1).rotation.1 =
      (computeTransform s item 1 t2).rotation.1 ∧
    (computeTransform s item 1 t1).rotation.2.2 =
      (computeTransform s item 1 t2).rotation.2.2 ∧
    ((computeTransform s item 1 t1).rotation.2.1 =
      (computeTransform s item 1 t2).rotation.2.1 ↔ t1 = t2) := by
  refine ⟨?_, rfl, ?_⟩
  · show rotX item.rotation.1 t1 1 = rotX item.rotation.1 t2 1
    unfold rotX; ring
  · show rotY item.rotation.2.1 t1 = rotY item.rotation.2.1 t2 ↔ t1 = t2
    unfold rotY
    constructor
    · intro h; linarith
    · intro h; rw [h]

/-- C7: `getTreeSpiralPoint` is deterministic — two calls with
componentwise identical arguments return the identical point; the
definition consumes no random draw and reads no hidden state. -/
theorem getTreeSpiralPoint_two_run_eq (o : TrigOracle)
    (t1 n1 h1 r1 y1 t2 n2 h2 r2 y2 : JSNum)
    (ht : t1 = t2) (hn : n1 = n2) (hh : h1 = h2) (hr : r1 = r2) (hy : y1 = y2) :
    getTreeSpiralPoint o t1 n1 h1 r1 y1 = getTreeSpiralPoint o t2 n2 h2 r2 y2 := by
  subst ht hn hh hr hy; rfl

/-- Witness for C7 at the concrete ornament-group call
`getTreeSpiralPoint(1, 250, 12, 5.5 * 0.9, -5)`. -/
theorem getTreeSpiralPoint_two_run_eq_witness :
    getTreeSpiralPoint idOracle (JSNum.fin 1) (JSNum.fin 250) (JSNum.fin 12)
        (JSNum.fin 4.95) (JSNum.fin (-5)) =
      getTreeSpiralPoint idOracle (JSNum.fin 1) (JSNum.fin 250) (JSNum.fin 12)
        (JSNum.fin 4.95) (JSNum.fin (-5)) :=
  getTreeSpiralPoint_two_run_eq idOracle _ _ _ _ _ _ _ _ _ _ rfl rfl rfl rfl rfl

/-- C8: a frame pass recomputes only the instance-matrix slots; the group's
dataset after the pass is equal, record by record and field by field, to
the dataset built at initialization. -/
theorem frame_preserves_dataset (s : ℚ → ℚ) (st : GroupState) (easeT time : ℚ) :
    (frameStep s st easeT time).data = st.data := rfl

end XmasMorph
